import Mathlib

/-!
Shallow embedding of the clone / instant-clone workflow of
`vsphere/internal/vmworkflow/virtual_machine_clone_subresource.go` from the
`terraform-provider-vsphere` repository, together with theorems checking the
repository's natural-language specification against it.

Remote lookups (UUID resolution, property fetches, datastore / resource pool /
host / network resolution) and the delegated helpers of the `virtualdevice`
package are modelled as an abstract `Client` record of fallible functions, so
that every theorem quantifies over the behaviour of the remote management
plane.  Error values are modelled as an inductive type with one constructor
per `fmt.Errorf` site of the Go source (carrying the interpolated data), plus
a single `delegated` constructor for errors that the Go code propagates
verbatim from an external collaborator.
-/

namespace vmworkflow

/-- A managed object reference (`types.ManagedObjectReference`); the code
under study only ever reads and compares its `Value` field. -/
structure MoRef where
  value : String
deriving DecidableEq, Repr

/-- A node of a snapshot tree (`types.VirtualMachineSnapshotTree`): the
snapshot reference of the node and the list of child snapshot nodes. -/
inductive SnapshotTree where
  | node (snapshot : MoRef) (childSnapshotList : List SnapshotTree)

/-- The snapshot reference of a snapshot tree node. -/
def SnapshotTree.snapshot : SnapshotTree → MoRef
  | .node s _ => s

/-- The child snapshot list of a snapshot tree node. -/
def SnapshotTree.childSnapshotList : SnapshotTree → List SnapshotTree
  | .node _ c => c

/-- Snapshot information of a virtual machine
(`types.VirtualMachineSnapshotInfo`): the current-snapshot pointer and the
root snapshot list. -/
structure VMSnapshotInfo where
  currentSnapshot : MoRef
  rootSnapshotList : List SnapshotTree

/-- Shares information of a resource allocation (`types.SharesInfo`). -/
structure SharesInfo where
  level : String
  shares : Int
deriving DecidableEq, Repr

/-- Resource allocation of an ethernet card
(`types.VirtualEthernetCardResourceAllocation`); `limit` and `reservation`
are nullable 64-bit integers in the Go source. -/
structure ResourceAllocation where
  limit : Option Int
  reservation : Option Int
  share : SharesInfo
deriving DecidableEq, Repr

/-- A backing descriptor for an ethernet card, as returned by
`network.EthernetCardBackingInfo`; opaque to the code under study. -/
structure EthernetBacking where
  id : String
deriving DecidableEq, Repr

/-- A virtual ethernet card (`types.VirtualEthernetCard`): the fields the
instant-clone builder reads or rewrites. -/
structure VirtualEthernetCard where
  addressType : String
  macAddress : String
  backing : Option EthernetBacking
  resourceAllocation : ResourceAllocation
deriving DecidableEq, Repr

/-- A device of a virtual machine's hardware list
(`types.BaseVirtualDevice`): either a network-adapter-typed device (one that
implements `types.BaseVirtualEthernetCard`) or any other device, opaque. -/
inductive VirtualDevice where
  | ethernet (card : VirtualEthernetCard)
  | other (key : Int)
deriving DecidableEq, Repr

/-- The hardware of a virtual machine (`types.VirtualHardware`): its ordered
device list. -/
structure VirtualHardware where
  device : List VirtualDevice

/-- The vApp configuration block (`types.VmConfigInfo`); the code only reads
its OVF environment transport list. -/
structure VmConfigInfo where
  ovfEnvironmentTransport : List String

/-- A virtual machine's configuration (`types.VirtualMachineConfigInfo`):
the fields the code under study reads. -/
structure VirtualMachineConfigInfo where
  uuid : String
  guestId : String
  hardware : VirtualHardware
  vAppConfig : Option VmConfigInfo

/-- A fetched property snapshot of a virtual machine (`mo.VirtualMachine`):
configuration plus an optional snapshot tree. -/
structure VirtualMachine where
  config : VirtualMachineConfigInfo
  snapshot : Option VMSnapshotInfo

/-- The error type of the workflow.  One constructor per `fmt.Errorf` site of
the Go source, carrying the data that the source interpolates into the error
message; `delegated` injects an error an external collaborator returned and
that the source propagates verbatim. -/
inductive CloneErr where
  | cannotLocate (uuid : String) (err : String)
  | propsUnavailable (err : String)
  | guestIDMismatch (actual : String) (expected : String)
  | snapMissing (uuid : String)
  | snapRootCount (uuid : String) (count : Nat)
  | snapRootChildren (uuid : String)
  | snapCurrentMismatch (uuid : String)
  | datastoreLocate (err : String)
  | poolNotFound (id : String) (err : String)
  | osFamilyNotFound (guestID : String) (err : String)
  | hostLocate (id : String) (err : String)
  | hostNotInPool (host : String) (pool : String)
  | delegated (err : String)
deriving DecidableEq, Repr

/-- The body of `validateCloneSnapshots` once the snapshot tree is known to
be present: the root list must be a single node (`len(RootSnapshotList) == 1`
in the source, in which case the source indexes `RootSnapshotList[0]` — the
`[root]` pattern here; every other shape takes the `must have exactly one
root snapshot` error carrying the length), that node must have no children,
and the current snapshot must match that node's snapshot. -/
def validateSnapshotTopology (uuid : String) (snap : VMSnapshotInfo) :
    Except CloneErr Unit :=
  match snap.rootSnapshotList with
  | [root] =>
    if root.childSnapshotList.length > 0 then
      .error (.snapRootChildren uuid)
    else if snap.currentSnapshot.value ≠ root.snapshot.value then
      .error (.snapCurrentMismatch uuid)
    else
      .ok ()
  | l => .error (.snapRootCount uuid l.length)

/-- Translation of `validateCloneSnapshots`: checks that a property snapshot
has a snapshot tree with exactly one root snapshot, that this root snapshot
has no children, and that the current snapshot matches the root snapshot. -/
def validateCloneSnapshots (props : VirtualMachine) : Except CloneErr Unit :=
  match props.snapshot with
  | none => .error (.snapMissing props.config.uuid)
  | some snap => validateSnapshotTopology props.config.uuid snap

/-- The three-way conjunction that the specification states for linked-clone
snapshot eligibility: the root snapshot list is a single node, that node has
no children, and the current-snapshot reference equals that node's snapshot
reference. -/
def snapshotEligible (snap : VMSnapshotInfo) : Prop :=
  ∃ root, snap.rootSnapshotList = [root] ∧
    root.childSnapshotList = [] ∧
    snap.currentSnapshot.value = root.snapshot.value

/-- A property snapshot with a single childless root snapshot matching the
current snapshot, used as a concrete witness input. -/
def propsEligible : VirtualMachine :=
  { config := { uuid := "42-eligible", guestId := "ubuntu64Guest",
                hardware := { device := [] }, vAppConfig := none },
    snapshot := some { currentSnapshot := ⟨"snap-7"⟩,
                       rootSnapshotList := [.node ⟨"snap-7"⟩ []] } }

/-- A property snapshot with no snapshot tree at all, used as a concrete
witness input. -/
def propsNoSnapshot : VirtualMachine :=
  { config := { uuid := "42-nosnap", guestId := "ubuntu64Guest",
                hardware := { device := [] }, vAppConfig := none },
    snapshot := none }

/-- A resolved virtual machine handle (`object.VirtualMachine`). -/
structure VMHandle where
  ref : MoRef
deriving DecidableEq, Repr

/-- A resolved datastore handle (`object.Datastore`). -/
structure Datastore where
  ref : MoRef
deriving DecidableEq, Repr

/-- A resolved resource pool handle (`object.ResourcePool`), together with
the hosts of the compute environment it draws capacity from (read only by
the spec-modelled `ValidateHost`). -/
structure ResourcePool where
  ref : MoRef
  hosts : List MoRef
deriving DecidableEq, Repr

/-- A resolved host system handle (`object.HostSystem`). -/
structure HostSystem where
  ref : MoRef
deriving DecidableEq, Repr

/-- A resolved network handle (`object.NetworkReference`). -/
structure Network where
  ref : MoRef
deriving DecidableEq, Repr

/-- A resolved folder handle (`object.Folder`). -/
structure Folder where
  ref : MoRef
deriving DecidableEq, Repr

/-- A per-disk relocation instruction
(`types.VirtualMachineRelocateSpecDiskLocator`), produced by the external
`virtualdevice.DiskCloneRelocateOperation` and opaque to the code under
study. -/
structure DiskRelocator where
  tag : Nat
deriving DecidableEq, Repr

/-- One declared `network_interface` block of the virtual machine resource. -/
structure NetworkInterface where
  networkID : String
  bandwidthLimit : Int
  bandwidthReservation : Int
  bandwidthShareLevel : String
  bandwidthShareCount : Int
  useStaticMac : Bool
  macAddress : String
deriving DecidableEq, Repr

/-- The declared configuration read by `ValidateVirtualMachineClone` from its
`*schema.ResourceDiff`: the keys the function calls `Get` / `GetOk` /
`NewValueKnown` on.  `templateUUIDKnown` models `NewValueKnown` for
`clone.0.template_uuid`; `resourcePoolID` models `GetOk("resource_pool_id")`
(absent when the key is unset); the contents of the customization blocks are
opaque to this function (only their number is read here, the blocks
themselves are consumed by the delegated customization-spec validator). -/
structure ResourceDiff where
  templateUUID : String
  templateUUIDKnown : Bool
  guestID : String
  linkedClone : Bool
  customize : List Unit
  resourcePoolID : Option String
deriving Repr

/-- The declared configuration read by the two spec builders from their
`*schema.ResourceData`.  `extraConfig` is the `extra_config` string map; the
list order models the iteration order in which the Go runtime presents the
map's entries, which Go does not guarantee to be the same across runs. -/
structure ResourceData where
  templateUUID : String
  linkedClone : Bool
  datastoreID : Option String
  resourcePoolID : String
  hostSystemID : Option String
  name : String
  extraConfig : List (String × String)
  sourceUUID : String
  networkInterfaces : List NetworkInterface
deriving Repr

/-- The remote management plane and the external collaborators, as an
abstract record of fallible functions: the inventory accessor
(`virtualmachine.FromUUID` / `.Properties`, `datastore.FromID`,
`resourcepool.FromID`, `hostsystem.FromID`, `network.FromID`,
`EthernetCardBackingInfo`), the device reconciler
(`virtualdevice.DiskCloneValidateOperation` / `DiskCloneRelocateOperation`)
and the customization helpers (`resourcepool.OSFamily`,
`ValidateCustomizationSpec`). -/
structure Client where
  vmFromUUID : String → Except String VMHandle
  vmProperties : VMHandle → Except String VirtualMachine
  datastoreFromID : String → Except String Datastore
  resourcePoolFromID : String → Except String ResourcePool
  hostFromID : String → Except String HostSystem
  networkFromID : String → Except String Network
  ethernetCardBackingInfo : Network → Except String EthernetBacking
  diskCloneValidate : ResourceDiff → List VirtualDevice → Bool → Except String Unit
  diskCloneRelocate : ResourceData → List VirtualDevice → Except String (List DiskRelocator)
  osFamily : ResourcePool → String → Except String String
  validateCustomizationSpec : ResourceDiff → String → Except String Unit

/-- The checks the template-specific half of `ValidateVirtualMachineClone`
runs on the fetched source properties: require the guest IDs to match, check
snapshot eligibility when a linked clone is requested, delegate disk
validation to the device reconciler forwarding the linked flag, and finally
record the vApp transport types (the `d.SetNew("vapp_transport", ...)` side
effect, returned here as the optional value). -/
def validateTemplateProps (d : ResourceDiff) (c : Client) (vprops : VirtualMachine) :
    Except CloneErr (Option (List String)) :=
  if vprops.config.guestId ≠ d.guestID then
    .error (.guestIDMismatch d.guestID vprops.config.guestId)
  else
    match (if d.linkedClone then validateCloneSnapshots vprops else .ok ()) with
    | .error e => .error e
    | .ok _ =>
      match c.diskCloneValidate d vprops.config.hardware.device d.linkedClone with
      | .error e => .error (.delegated e)
      | .ok _ =>
        match vprops.config.vAppConfig with
        | some vconfig => .ok (some vconfig.ovfEnvironmentTransport)
        | none => .ok none

/-- Resolution part of the template-specific half of
`ValidateVirtualMachineClone`: resolve the source and fetch its properties,
then run the checks of `validateTemplateProps` on them; when the template
UUID is not yet known, skip all of this. -/
def validateTemplate (d : ResourceDiff) (c : Client) :
    Except CloneErr (Option (List String)) :=
  if d.templateUUIDKnown then
    match c.vmFromUUID d.templateUUID with
    | .error e => .error (.cannotLocate d.templateUUID e)
    | .ok vm =>
      match c.vmProperties vm with
      | .error e => .error (.propsUnavailable e)
      | .ok vprops => validateTemplateProps d c vprops
  else
    .ok none

/-- The customization half of `ValidateVirtualMachineClone` (the
`len(d.Get("clone.0.customize")) > 0` block, which runs whether or not the
template UUID is known): when a customization block is declared and the
resource pool id is resolvable, resolve the pool, look up the OS family of
the declared guest ID in it, and delegate to the customization-spec
validator; when the resource pool id is not available the step is skipped. -/
def validateCustomize (d : ResourceDiff) (c : Client) : Except CloneErr Unit :=
  if d.customize.length > 0 then
    match d.resourcePoolID with
    | some poolID =>
      match c.resourcePoolFromID poolID with
      | .error e => .error (.poolNotFound poolID e)
      | .ok pool =>
        match c.osFamily pool d.guestID with
        | .error e => .error (.osFamilyNotFound d.guestID e)
        | .ok family =>
          match c.validateCustomizationSpec d family with
          | .error e => .error (.delegated e)
          | .ok _ => .ok ()
    | none => .ok ()
  else
    .ok ()

/-- Translation of `ValidateVirtualMachineClone`: the template-specific
checks followed by the customization-block checks, returning the recorded
vApp transport types on success. -/
def ValidateVirtualMachineClone (d : ResourceDiff) (c : Client) :
    Except CloneErr (Option (List String)) :=
  match validateTemplate d c with
  | .error e => .error e
  | .ok vapp =>
    match validateCustomize d c with
    | .error e => .error e
    | .ok _ => .ok vapp

/-- A configuration diff whose template UUID is not yet known, carrying an
intentionally invalid guest ID and a declared customization block with a
resolvable resource pool. -/
def diffUnknownCustomize : ResourceDiff :=
  { templateUUID := "", templateUUIDKnown := false, guestID := "not-a-guest-id",
    linkedClone := false, customize := [()], resourcePoolID := some "pool-1" }

/-- A client on which resolving the resource pool succeeds but the OS-family
lookup fails (as it does for an invalid guest ID). -/
def clientOsFamilyFails : Client :=
  { vmFromUUID := fun _ => .error "unreachable",
    vmProperties := fun _ => .error "unreachable",
    datastoreFromID := fun _ => .error "unreachable",
    resourcePoolFromID := fun _ => .ok ⟨⟨"pool-1-ref"⟩, []⟩,
    hostFromID := fun _ => .error "unreachable",
    networkFromID := fun _ => .error "unreachable",
    ethernetCardBackingInfo := fun _ => .error "unreachable",
    diskCloneValidate := fun _ _ _ => .ok (),
    diskCloneRelocate := fun _ _ => .ok [],
    osFamily := fun _ g => .error ("unknown guest id " ++ g),
    validateCustomizationSpec := fun _ _ => .ok () }

/-- A configuration diff whose template UUID is not yet known, carrying an
invalid guest ID, a requested linked clone and no customization block. -/
def diffUnknownPlain : ResourceDiff :=
  { templateUUID := "", templateUUIDKnown := false, guestID := "not-a-guest-id",
    linkedClone := true, customize := [], resourcePoolID := some "pool-1" }

/-- A property snapshot whose guest ID differs from the declared one used in
the C4 witness configuration. -/
def propsOtherLinux : VirtualMachine :=
  { config := { uuid := "42-src", guestId := "otherLinux64Guest",
                hardware := { device := [] }, vAppConfig := none },
    snapshot := none }

/-- A configuration diff declaring guest ID `ubuntu64Guest` against a source
whose guest ID is `otherLinux64Guest`. -/
def diffUbuntu : ResourceDiff :=
  { templateUUID := "42-src", templateUUIDKnown := true, guestID := "ubuntu64Guest",
    linkedClone := false, customize := [], resourcePoolID := none }

/-- A client resolving the witness source UUID to a source whose guest ID is
`otherLinux64Guest`. -/
def clientOtherLinux : Client :=
  { vmFromUUID := fun _ => .ok ⟨⟨"vm-42"⟩⟩,
    vmProperties := fun _ => .ok propsOtherLinux,
    datastoreFromID := fun _ => .error "unreachable",
    resourcePoolFromID := fun _ => .error "unreachable",
    hostFromID := fun _ => .error "unreachable",
    networkFromID := fun _ => .error "unreachable",
    ethernetCardBackingInfo := fun _ => .error "unreachable",
    diskCloneValidate := fun _ _ _ => .ok (),
    diskCloneRelocate := fun _ _ => .ok [],
    osFamily := fun _ _ => .error "unreachable",
    validateCustomizationSpec := fun _ _ => .ok () }

/-- A device-change instruction (`types.VirtualDeviceConfigSpec`): an
operation tag and the device it wraps. -/
structure VirtualDeviceConfigSpec where
  operation : String
  device : VirtualDevice
deriving DecidableEq, Repr

/-- A relocate spec (`types.VirtualMachineRelocateSpec`), shared by both
clone variants; the zero value leaves every field unset. -/
structure RelocateSpec where
  datastore : Option MoRef := none
  pool : Option MoRef := none
  host : Option MoRef := none
  folder : Option MoRef := none
  diskMoveType : String := ""
  disk : List DiskRelocator := []
  deviceChange : List VirtualDeviceConfigSpec := []
deriving DecidableEq, Repr

/-- A traditional clone spec (`types.VirtualMachineCloneSpec`): the relocate
spec and the optional source snapshot reference. -/
structure CloneSpec where
  location : RelocateSpec := {}
  snapshot : Option MoRef := none
deriving DecidableEq, Repr

/-- A key/value extra-configuration entry (`types.OptionValue`). -/
structure OptionValue where
  key : String
  value : String
deriving DecidableEq, Repr

/-- An instant clone spec (`types.VirtualMachineInstantCloneSpec`): target
name, relocate spec and the extra-configuration entries. -/
structure InstantCloneSpec where
  name : String := ""
  location : RelocateSpec := {}
  config : List OptionValue := []
deriving DecidableEq, Repr

/-- The govmomi enum value
`types.VirtualMachineRelocateDiskMoveOptionsCreateNewChildDiskBacking`. -/
def diskMoveCreateNewChildDiskBacking : String := "createNewChildDiskBacking"

/-- The govmomi enum value `types.VirtualEthernetCardMacTypeManual`. -/
def macTypeManual : String := "manual"

/-- The govmomi enum value `types.SharesLevelCustom`. -/
def sharesLevelCustom : String := "custom"

/-- The govmomi enum value `types.VirtualDeviceConfigSpecOperationEdit`. -/
def operationEdit : String := "edit"

/-- Modelled from the spec: `resourcepool.ValidateHost` lives in the helper
package `vsphere/internal/helper/resourcepool`, which is not included under
`src/`; per the specification it verifies that a declared target host "is a
member of the resolved resource pool's compute environment — a structural
placement constraint — failing with `HostNotInPool` otherwise", and with no
host declared there is nothing to check. -/
def ValidateHost (pool : ResourcePool) (hs : Option HostSystem) :
    Except CloneErr Unit :=
  match hs with
  | none => .ok ()
  | some h =>
    if h.ref ∈ pool.hosts then .ok ()
    else .error (.hostNotInPool h.ref.value pool.ref.value)

/-- The datastore step shared by both spec builders: populate the datastore
reference only when a datastore ID is declared (`d.GetOk("datastore_id")`);
absence is legal (a datastore cluster may be used instead) and leaves the
field unset. -/
def expandDatastore (d : ResourceData) (c : Client) :
    Except CloneErr (Option MoRef) :=
  match d.datastoreID with
  | none => .ok none
  | some dsID =>
    match c.datastoreFromID dsID with
    | .error e => .error (.datastoreLocate e)
    | .ok ds => .ok (some ds.ref)

/-- The linked-clone step of `ExpandVirtualMachineCloneSpec`: when a linked
clone is requested, re-run the snapshot eligibility check defensively and
return the snapshot reference (the source's current snapshot) and disk-move
policy value to store; otherwise both fields keep their zero values.  The
`(none, ...)` arm after a successful check is unreachable, as the check
fails whenever the snapshot tree is absent. -/
def expandLinked (d : ResourceData) (vprops : VirtualMachine) :
    Except CloneErr (Option MoRef × String) :=
  if d.linkedClone then
    match validateCloneSnapshots vprops with
    | .error e => .error e
    | .ok _ =>
      match vprops.snapshot with
      | some snap => .ok (some snap.currentSnapshot, diskMoveCreateNewChildDiskBacking)
      | none => .ok (none, diskMoveCreateNewChildDiskBacking)
  else
    .ok (none, "")

/-- The host step of `ExpandVirtualMachineCloneSpec`: resolve the target
host when one is declared (`d.GetOk("host_system_id")`). -/
def expandHost (d : ResourceData) (c : Client) :
    Except CloneErr (Option HostSystem) :=
  match d.hostSystemID with
  | none => .ok none
  | some hsID =>
    match c.hostFromID hsID with
    | .error e => .error (.hostLocate hsID e)
    | .ok hs => .ok (some hs)

/-- Translation of `ExpandVirtualMachineCloneSpec`.  Mirroring the Go
function, which returns its partially assembled `spec` value together with a
nil handle on every error path, the result is the triple of the spec built
so far, the optional source handle and the optional error. -/
def ExpandVirtualMachineCloneSpec (d : ResourceData) (c : Client) :
    CloneSpec × Option VMHandle × Option CloneErr :=
  match expandDatastore d c with
  | .error e => ({}, none, some e)
  | .ok ds =>
    let spec1 : CloneSpec := { location := { datastore := ds } }
    match c.vmFromUUID d.templateUUID with
    | .error e => (spec1, none, some (.cannotLocate d.templateUUID e))
    | .ok vm =>
      match c.vmProperties vm with
      | .error e => (spec1, none, some (.propsUnavailable e))
      | .ok vprops =>
        match expandLinked d vprops with
        | .error e => (spec1, none, some e)
        | .ok (snapRef, dmt) =>
          let spec2 : CloneSpec := { snapshot := snapRef,
                                     location := { spec1.location with diskMoveType := dmt } }
          match c.resourcePoolFromID d.resourcePoolID with
          | .error e => (spec2, none, some (.poolNotFound d.resourcePoolID e))
          | .ok pool =>
            match expandHost d c with
            | .error e => (spec2, none, some e)
            | .ok hs =>
              match ValidateHost pool hs with
              | .error e => (spec2, none, some e)
              | .ok _ =>
                let spec3 : CloneSpec :=
                  { spec2 with location := { spec2.location with
                                             pool := some pool.ref,
                                             host := hs.map HostSystem.ref } }
                match c.diskCloneRelocate d vprops.config.hardware.device with
                | .error e => (spec3, none, some (.delegated e))
                | .ok relocators =>
                  ({ spec3 with location := { spec3.location with disk := relocators } },
                    some vm, none)

/-- The per-pair rewrite the instant-clone loop applies to a network
adapter: set the backing, the bandwidth limit, the bandwidth reservation and
the share level; set the share count only when the (just assigned) share
level is "custom"; and either set a manual MAC from the declaration or
hard-reset both address fields to empty. -/
def updateEthernetCard (card : VirtualEthernetCard) (ni : NetworkInterface)
    (backing : EthernetBacking) : VirtualEthernetCard :=
  let card1 : VirtualEthernetCard :=
    { card with backing := some backing,
                resourceAllocation :=
                  { limit := some ni.bandwidthLimit,
                    reservation := some ni.bandwidthReservation,
                    share := { card.resourceAllocation.share with
                               level := ni.bandwidthShareLevel } } }
  let card2 : VirtualEthernetCard :=
    if card1.resourceAllocation.share.level = sharesLevelCustom then
      { card1 with resourceAllocation :=
          { card1.resourceAllocation with
            share := { card1.resourceAllocation.share with
                       shares := ni.bandwidthShareCount } } }
    else card1
  if ni.useStaticMac then
    { card2 with addressType := macTypeManual, macAddress := ni.macAddress }
  else
    { card2 with addressType := "", macAddress := "" }

/-- The `devices.Select` filter of the instant-clone builder: keep the
network-adapter-typed devices (those implementing
`types.BaseVirtualEthernetCard`), preserving the original order, as their
ethernet cards (which the loop body obtains by type assertion). -/
def selectEthernetCards (devs : List VirtualDevice) : List VirtualEthernetCard :=
  devs.filterMap fun dev =>
    match dev with
    | .ethernet card => some card
    | .other _ => none

/-- The device/declaration pairing loop of the instant-clone builder.  The
Go source iterates the filtered device list with a running index into the
declared `network_interface` list and pairs only indices below both lengths,
so the recursion consumes both lists together and stops extending the
accumulated device-change list as soon as either runs out; on a failed
network or backing lookup it returns the instructions accumulated so far
(which the source keeps assigned in the partial spec) together with the
error, which the source propagates verbatim. -/
def instantNetworkDeviceChanges (c : Client) :
    List VirtualEthernetCard → List NetworkInterface →
    List VirtualDeviceConfigSpec →
    List VirtualDeviceConfigSpec × Option String
  | [], _, configSpecs => (configSpecs, none)
  | _ :: _, [], configSpecs => (configSpecs, none)
  | card :: cards, ni :: nis, configSpecs =>
    match c.networkFromID ni.networkID with
    | .error e => (configSpecs, some e)
    | .ok net =>
      match c.ethernetCardBackingInfo net with
      | .error e => (configSpecs, some e)
      | .ok backing =>
        instantNetworkDeviceChanges c cards nis
          (configSpecs ++ [{ operation := operationEdit,
                             device := .ethernet (updateEthernetCard card ni backing) }])

/-- Translation of `ExpandVirtualMachineInstantCloneSpec`.  As with the
traditional builder, the result mirrors the Go triple of partially
assembled spec, optional source handle and optional error. -/
def ExpandVirtualMachineInstantCloneSpec (d : ResourceData) (c : Client)
    (fo : Folder) : InstantCloneSpec × Option VMHandle × Option CloneErr :=
  match expandDatastore d c with
  | .error e => ({}, none, some e)
  | .ok ds =>
    let spec1 : InstantCloneSpec :=
      { name := d.name,
        location := { datastore := ds, folder := some fo.ref },
        config := d.extraConfig.map fun kv => { key := kv.1, value := kv.2 } }
    match c.vmFromUUID d.sourceUUID with
    | .error e => (spec1, none, some (.cannotLocate d.sourceUUID e))
    | .ok srcVM =>
      match c.vmProperties srcVM with
      | .error e => (spec1, none, some (.propsUnavailable e))
      | .ok vprops =>
        let devices := selectEthernetCards vprops.config.hardware.device
        match instantNetworkDeviceChanges c devices d.networkInterfaces [] with
        | (acc, some e) =>
          ({ spec1 with location := { spec1.location with deviceChange := acc } },
            none, some (.delegated e))
        | (configSpecs, none) =>
          let spec2 : InstantCloneSpec :=
            { spec1 with location := { spec1.location with deviceChange := configSpecs } }
          match c.resourcePoolFromID d.resourcePoolID with
          | .error e => (spec2, none, some (.poolNotFound d.resourcePoolID e))
          | .ok pool =>
            let spec3 : InstantCloneSpec :=
              { spec2 with location := { spec2.location with pool := some pool.ref } }
            match c.diskCloneRelocate d vprops.config.hardware.device with
            | .error e => (spec3, none, some (.delegated e))
            | .ok relocators =>
              ({ spec3 with location := { spec3.location with disk := relocators } },
                some srcVM, none)

/-- Default ethernet card used with `List.getD` in index statements. -/
def dummyCard : VirtualEthernetCard :=
  { addressType := "", macAddress := "", backing := none,
    resourceAllocation := { limit := none, reservation := none,
                            share := { level := "", shares := 0 } } }

/-- Default network interface declaration used with `List.getD`. -/
def dummyNI : NetworkInterface :=
  { networkID := "", bandwidthLimit := 0, bandwidthReservation := 0,
    bandwidthShareLevel := "", bandwidthShareCount := 0,
    useStaticMac := false, macAddress := "" }

/-- Default device-change instruction used with `List.getD`. -/
def dummySpec : VirtualDeviceConfigSpec :=
  { operation := "", device := .other 0 }

/-- A source network adapter that carries a manual MAC before the clone. -/
def cardManual : VirtualEthernetCard :=
  { addressType := "manual", macAddress := "00:11:22:33:44:55", backing := none,
    resourceAllocation := { limit := none, reservation := none,
                            share := { level := "normal", shares := 50 } } }

/-- Source properties with three network adapters (and one non-network
device interleaved), used as a concrete instant-clone witness input. -/
def propsThreeNics : VirtualMachine :=
  { config := { uuid := "43-src", guestId := "ubuntu64Guest",
                hardware := { device := [.ethernet cardManual, .other 1,
                                         .ethernet cardManual, .ethernet cardManual] },
                vAppConfig := none },
    snapshot := none }

/-- A declared interface block with bandwidth limit -1, reservation 0, share
level "normal" and no static MAC. -/
def niNormal : NetworkInterface :=
  { networkID := "net-1", bandwidthLimit := -1, bandwidthReservation := 0,
    bandwidthShareLevel := "normal", bandwidthShareCount := 0,
    useStaticMac := false, macAddress := "" }

/-- Declared data for the instant-clone witness run: one interface block
against three source adapters. -/
def dataInstant : ResourceData :=
  { templateUUID := "", linkedClone := false, datastoreID := none,
    resourcePoolID := "pool-1", hostSystemID := none, name := "clone-1",
    extraConfig := [], sourceUUID := "43-src", networkInterfaces := [niNormal] }

/-- A client on which the instant-clone witness run fully succeeds. -/
def clientInstant : Client :=
  { vmFromUUID := fun _ => .ok ⟨⟨"vm-43"⟩⟩,
    vmProperties := fun _ => .ok propsThreeNics,
    datastoreFromID := fun _ => .error "unreachable",
    resourcePoolFromID := fun _ => .ok ⟨⟨"pool-1-ref"⟩, []⟩,
    hostFromID := fun _ => .error "unreachable",
    networkFromID := fun _ => .ok ⟨⟨"net-1-ref"⟩⟩,
    ethernetCardBackingInfo := fun _ => .ok ⟨"net-1-backing"⟩,
    diskCloneValidate := fun _ _ _ => .ok (),
    diskCloneRelocate := fun _ _ => .ok [],
    osFamily := fun _ _ => .ok "linux",
    validateCustomizationSpec := fun _ _ => .ok () }

/-- The target folder of the witness runs. -/
def fo1 : Folder := ⟨⟨"folder-1"⟩⟩

/-- The spec the instant-clone witness run produces. -/
def instantSpecW : InstantCloneSpec :=
  { name := "clone-1",
    location := { datastore := none, pool := some ⟨"pool-1-ref"⟩, host := none,
                  folder := some ⟨"folder-1"⟩, diskMoveType := "", disk := [],
                  deviceChange := [{ operation := operationEdit,
                                     device := .ethernet (updateEthernetCard cardManual
                                       niNormal ⟨"net-1-backing"⟩) }] },
    config := [] }

/-- Declared data for the traditional-clone witness run: a linked clone with
a declared datastore and target host. -/
def dataLinked : ResourceData :=
  { templateUUID := "42-eligible", linkedClone := true, datastoreID := some "ds-1",
    resourcePoolID := "pool-1", hostSystemID := some "host-1", name := "clone-2",
    extraConfig := [], sourceUUID := "", networkInterfaces := [] }

/-- A client on which the traditional-clone witness run fully succeeds; the
resolved host is a member of the resolved pool's compute environment. -/
def clientHappy : Client :=
  { vmFromUUID := fun _ => .ok ⟨⟨"vm-42"⟩⟩,
    vmProperties := fun _ => .ok propsEligible,
    datastoreFromID := fun _ => .ok ⟨⟨"ds-1-ref"⟩⟩,
    resourcePoolFromID := fun _ => .ok ⟨⟨"pool-1-ref"⟩, [⟨"host-1-ref"⟩]⟩,
    hostFromID := fun _ => .ok ⟨⟨"host-1-ref"⟩⟩,
    networkFromID := fun _ => .ok ⟨⟨"net-1-ref"⟩⟩,
    ethernetCardBackingInfo := fun _ => .ok ⟨"net-1-backing"⟩,
    diskCloneValidate := fun _ _ _ => .ok (),
    diskCloneRelocate := fun _ _ => .ok [⟨7⟩],
    osFamily := fun _ _ => .ok "linux",
    validateCustomizationSpec := fun _ _ => .ok () }

/-- The spec the traditional-clone witness run produces. -/
def cloneSpecW : CloneSpec :=
  { location := { datastore := some ⟨"ds-1-ref"⟩, pool := some ⟨"pool-1-ref"⟩,
                  host := some ⟨"host-1-ref"⟩, folder := none,
                  diskMoveType := diskMoveCreateNewChildDiskBacking,
                  disk := [⟨7⟩], deviceChange := [] },
    snapshot := some ⟨"snap-7"⟩ }

/-- A client identical to the happy one except that the resolved pool's
compute environment contains no hosts. -/
def clientHostMiss : Client :=
  { clientHappy with resourcePoolFromID := fun _ => .ok ⟨⟨"pool-1-ref"⟩, []⟩ }

/-- Instant-clone data whose extra-config map the Go runtime presents in one
iteration order.  The Go `map[string]interface` iteration order is not
guaranteed to be the same across runs, so the list order here models one
run's iteration order of the mapping. -/
def dataExtraAB : ResourceData :=
  { templateUUID := "", linkedClone := false, datastoreID := none,
    resourcePoolID := "pool-1", hostSystemID := none, name := "clone-3",
    extraConfig := [("guestinfo.a", "1"), ("guestinfo.b", "2")],
    sourceUUID := "43-src", networkInterfaces := [] }

/-- The same declared data with the same extra-config mapping presented in
the other iteration order, as another run of the Go runtime may. -/
def dataExtraBA : ResourceData :=
  { dataExtraAB with extraConfig := [("guestinfo.b", "2"), ("guestinfo.a", "1")] }

/-- C1: for every source whose snapshot tree is present, the eligibility
check `validateCloneSnapshots` succeeds iff the root snapshot list has
exactly one node, that node's child list is empty and the current-snapshot
reference equals that node's snapshot reference; and each violated clause
produces the hard failure naming that specific clause. -/
theorem validateCloneSnapshots_iff_eligible (props : VirtualMachine)
    (snap : VMSnapshotInfo) (h : props.snapshot = some snap) :
    (validateCloneSnapshots props = .ok () ↔ snapshotEligible snap)
    ∧ (snap.rootSnapshotList.length ≠ 1 →
        validateCloneSnapshots props =
          .error (.snapRootCount props.config.uuid snap.rootSnapshotList.length))
    ∧ (∀ root, snap.rootSnapshotList = [root] → root.childSnapshotList ≠ [] →
        validateCloneSnapshots props = .error (.snapRootChildren props.config.uuid))
    ∧ (∀ root, snap.rootSnapshotList = [root] → root.childSnapshotList = [] →
        snap.currentSnapshot.value ≠ root.snapshot.value →
        validateCloneSnapshots props = .error (.snapCurrentMismatch props.config.uuid)) := by
  have hval : validateCloneSnapshots props = validateSnapshotTopology props.config.uuid snap := by
    unfold validateCloneSnapshots
    rw [h]
  rw [hval]
  obtain ⟨cur, roots⟩ := snap
  rcases roots with _ | ⟨root, _ | ⟨root2, rest2⟩⟩
  · refine ⟨?_, fun _ => rfl, ?_, ?_⟩
    · constructor
      · intro hcontra; cases hcontra
      · rintro ⟨r, hr, -, -⟩; cases hr
    · intro r hr; cases hr
    · intro r hr; cases hr
  · refine ⟨?_, ?_, ?_, ?_⟩
    · constructor
      · intro hok
        refine ⟨root, rfl, ?_, ?_⟩
        · by_cases hc : root.childSnapshotList.length > 0
          · simp [validateSnapshotTopology, hc] at hok
          · simpa using Nat.eq_zero_of_not_pos hc
        · by_cases hc : root.childSnapshotList.length > 0
          · simp [validateSnapshotTopology, hc] at hok
          · by_cases hm : cur.value = root.snapshot.value
            · exact hm
            · simp [validateSnapshotTopology, hc, hm] at hok
      · rintro ⟨r, hr, hchild, hcur⟩
        injection hr with hr1 hr2
        subst hr1
        have hcur2 : cur.value = root.snapshot.value := hcur
        simp [validateSnapshotTopology, hchild, hcur2]
    · intro hlen; simp at hlen
    · intro r hr hchild
      injection hr with hr1 hr2
      subst hr1
      have hpos : root.childSnapshotList.length > 0 := by
        cases hc : root.childSnapshotList with
        | nil => exact absurd hc hchild
        | cons a b => simp [hc]
      simp [validateSnapshotTopology, hpos]
    · intro r hr hchild hcur
      injection hr with hr1 hr2
      subst hr1
      have hcur2 : ¬ cur.value = root.snapshot.value := hcur
      simp [validateSnapshotTopology, hchild, hcur2]
  · refine ⟨?_, fun _ => rfl, ?_, ?_⟩
    · constructor
      · intro hcontra; cases hcontra
      · rintro ⟨r, hr, -, -⟩; cases hr
    · intro r hr; cases hr
    · intro r hr; cases hr

/-- Witness for C1: the characterization applied to a concrete eligible
source, evaluating the check to success. -/
theorem validateCloneSnapshots_iff_eligible_witness :
    validateCloneSnapshots propsEligible = .ok () :=
  ((validateCloneSnapshots_iff_eligible propsEligible
      { currentSnapshot := ⟨"snap-7"⟩, rootSnapshotList := [.node ⟨"snap-7"⟩ []] }
      rfl).1).mpr ⟨.node ⟨"snap-7"⟩ [], rfl, rfl, rfl⟩

/-- C10: a source whose snapshot field is absent fails the eligibility check
with the dedicated "must have a snapshot to be used as a linked clone" error,
regardless of every other field, before any of the three eligibility clauses
is examined. -/
theorem validateCloneSnapshots_nil_snapshot (props : VirtualMachine)
    (h : props.snapshot = none) :
    validateCloneSnapshots props = .error (.snapMissing props.config.uuid) := by
  unfold validateCloneSnapshots
  rw [h]

/-- Witness for C10: the nil-snapshot failure evaluated on a concrete
snapshot-less source. -/
theorem validateCloneSnapshots_nil_snapshot_witness :
    validateCloneSnapshots propsNoSnapshot = .error (.snapMissing "42-nosnap") :=
  validateCloneSnapshots_nil_snapshot propsNoSnapshot rfl

/-- Counterexample to C2 as stated: with the template UUID not yet known but
a customization block declared together with a resolvable resource pool,
validation does fail (here because the OS-family lookup for the invalid
guest ID fails), so an unknown source identifier does not make validation
succeed regardless of every other declared value. -/
theorem validate_unknown_counterexample :
    diffUnknownCustomize.templateUUIDKnown = false ∧
    ValidateVirtualMachineClone diffUnknownCustomize clientOsFamilyFails =
      .error (.osFamilyNotFound "not-a-guest-id" "unknown guest id not-a-guest-id") :=
  ⟨rfl, rfl⟩

/-- C2 (amended): when the template UUID is not yet known, every
template-specific check is skipped (no source lookup, no guest-ID
comparison, no snapshot or disk check can fail); if moreover no
customization block is declared, or the resource pool id is not resolvable,
validation succeeds regardless of every other declared value — including an
intentionally invalid guest ID — and regardless of the remote plane's
behaviour. -/
theorem validate_unknown_skips (d : ResourceDiff) (c : Client)
    (hk : d.templateUUIDKnown = false)
    (hc : d.customize = [] ∨ d.resourcePoolID = none) :
    ValidateVirtualMachineClone d c = .ok none := by
  unfold ValidateVirtualMachineClone validateTemplate validateCustomize
  rw [hk]
  rcases hc with hc | hc <;> simp [hc]

/-- Witness for the amended C2: a concrete unknown-source configuration with
an invalid guest ID validates successfully. -/
theorem validate_unknown_skips_witness :
    ValidateVirtualMachineClone diffUnknownPlain clientOsFamilyFails = .ok none :=
  validate_unknown_skips diffUnknownPlain clientOsFamilyFails rfl (Or.inl rfl)

/-- The snapshot-topology check only produces snapshot-specific errors,
never the guest-ID-mismatch error. -/
lemma validateSnapshotTopology_no_mismatch (uuid : String) (snap : VMSnapshotInfo)
    (a e : String) :
    validateSnapshotTopology uuid snap ≠ .error (.guestIDMismatch a e) := by
  obtain ⟨cur, roots⟩ := snap
  rcases roots with _ | ⟨root, _ | _⟩ <;>
    simp only [validateSnapshotTopology] <;>
    (try split_ifs) <;> simp

/-- The snapshot eligibility check only produces snapshot-specific errors,
never the guest-ID-mismatch error. -/
lemma validateCloneSnapshots_no_mismatch (props : VirtualMachine) (a e : String) :
    validateCloneSnapshots props ≠ .error (.guestIDMismatch a e) := by
  unfold validateCloneSnapshots
  cases hs : props.snapshot with
  | none => simp
  | some snap => exact validateSnapshotTopology_no_mismatch props.config.uuid snap a e

/-- The customization half of the validator only produces resource-pool,
OS-family or delegated errors, never the guest-ID-mismatch error. -/
lemma validateCustomize_no_mismatch (d : ResourceDiff) (c : Client) (a e : String) :
    validateCustomize d c ≠ .error (.guestIDMismatch a e) := by
  unfold validateCustomize
  by_cases hlen : d.customize.length > 0
  · rw [if_pos hlen]
    cases hid : d.resourcePoolID with
    | none => simp
    | some poolID =>
      cases hpool : c.resourcePoolFromID poolID with
      | error eo => simp [hpool]
      | ok pool =>
        cases hfam : c.osFamily pool d.guestID with
        | error eo => simp [hpool, hfam]
        | ok family =>
          cases hcust : c.validateCustomizationSpec d family with
          | error eo => simp [hpool, hfam, hcust]
          | ok u => simp [hpool, hfam, hcust]
  · rw [if_neg hlen]
    simp

/-- C4: when the template UUID is known and the source resolves with a
property snapshot, validation fails with the guest-ID-mismatch error iff the
declared guest ID differs from the source's guest ID — the statement holding
for every declared configuration makes it independent of the linked-clone
flag and of the presence of a customization block — and on a mismatch the
error names both the declared (actual) and the source's (expected) guest
ID. -/
theorem validate_guest_id_equality (d : ResourceDiff) (c : Client)
    (vm : VMHandle) (vprops : VirtualMachine)
    (hk : d.templateUUIDKnown = true)
    (hvm : c.vmFromUUID d.templateUUID = .ok vm)
    (hp : c.vmProperties vm = .ok vprops) :
    ((∃ a e, ValidateVirtualMachineClone d c = .error (.guestIDMismatch a e)) ↔
      d.guestID ≠ vprops.config.guestId)
    ∧ (d.guestID ≠ vprops.config.guestId →
        ValidateVirtualMachineClone d c =
          .error (.guestIDMismatch d.guestID vprops.config.guestId)) := by
  have hbody : validateTemplate d c = validateTemplateProps d c vprops := by
    unfold validateTemplate
    rw [hk, if_pos rfl, hvm]
    show (match c.vmProperties vm with
      | .error e => .error (.propsUnavailable e)
      | .ok vprops => validateTemplateProps d c vprops) = validateTemplateProps d c vprops
    rw [hp]
  by_cases hg : vprops.config.guestId = d.guestID
  · have hnomis : ∀ a e, ValidateVirtualMachineClone d c ≠ .error (.guestIDMismatch a e) := by
      intro a e
      unfold ValidateVirtualMachineClone
      rw [hbody]
      unfold validateTemplateProps
      rw [if_neg (by simp [hg])]
      cases hsnap : (if d.linkedClone then validateCloneSnapshots vprops else Except.ok ()) with
      | error es =>
        have hne : es ≠ .guestIDMismatch a e := by
          intro habs
          subst habs
          by_cases hl : d.linkedClone
          · rw [if_pos hl] at hsnap
            exact validateCloneSnapshots_no_mismatch vprops a e hsnap
          · rw [if_neg hl] at hsnap
            cases hsnap
        simp [hsnap, hne]
      | ok u =>
        cases hdisk : c.diskCloneValidate d vprops.config.hardware.device d.linkedClone with
        | error es => simp [hsnap, hdisk]
        | ok u2 =>
          cases hcust : validateCustomize d c with
          | error ec =>
            have hne : ec ≠ .guestIDMismatch a e := by
              intro habs
              subst habs
              exact validateCustomize_no_mismatch d c a e hcust
            cases hv : vprops.config.vAppConfig with
            | none => simp [hsnap, hdisk, hv, hcust, hne]
            | some vconfig => simp [hsnap, hdisk, hv, hcust, hne]
          | ok u3 =>
            cases hv : vprops.config.vAppConfig with
            | none => simp [hsnap, hdisk, hv, hcust]
            | some vconfig => simp [hsnap, hdisk, hv, hcust]
    refine ⟨?_, ?_⟩
    · constructor
      · rintro ⟨a, e, habs⟩
        exact absurd habs (hnomis a e)
      · intro hne
        exact absurd hg.symm hne
    · intro hne
      exact absurd hg.symm hne
  · have hres : ValidateVirtualMachineClone d c =
        .error (.guestIDMismatch d.guestID vprops.config.guestId) := by
      unfold ValidateVirtualMachineClone
      rw [hbody]
      unfold validateTemplateProps
      rw [if_pos (by simpa using fun habs => hg habs)]
    refine ⟨?_, fun _ => hres⟩
    constructor
    · intro _
      intro habs
      exact hg habs.symm
    · intro _
      exact ⟨d.guestID, vprops.config.guestId, hres⟩

/-- Witness for C4: a declared `ubuntu64Guest` against a source running
`otherLinux64Guest` fails with the mismatch error naming both values. -/
theorem validate_guest_id_equality_witness :
    ValidateVirtualMachineClone diffUbuntu clientOtherLinux =
      .error (.guestIDMismatch "ubuntu64Guest" "otherLinux64Guest") :=
  (validate_guest_id_equality diffUbuntu clientOtherLinux ⟨⟨"vm-42"⟩⟩ propsOtherLinux
    rfl rfl rfl).2 (by decide)

/-- Success characterization of the traditional builder: a run that returns
a handle and no error went through every stage, and every field of the
returned spec is determined by the stages' results. -/
lemma expandClone_success (d : ResourceData) (c : Client) (spec : CloneSpec)
    (vm : VMHandle)
    (h : ExpandVirtualMachineCloneSpec d c = (spec, some vm, none)) :
    ∃ ds vprops snapRef dmt pool hs relocators,
      expandDatastore d c = .ok ds ∧
      c.vmFromUUID d.templateUUID = .ok vm ∧
      c.vmProperties vm = .ok vprops ∧
      expandLinked d vprops = .ok (snapRef, dmt) ∧
      c.resourcePoolFromID d.resourcePoolID = .ok pool ∧
      expandHost d c = .ok hs ∧
      ValidateHost pool hs = .ok () ∧
      c.diskCloneRelocate d vprops.config.hardware.device = .ok relocators ∧
      spec = { location := { datastore := ds, pool := some pool.ref,
                             host := hs.map HostSystem.ref, folder := none,
                             diskMoveType := dmt, disk := relocators,
                             deviceChange := [] },
               snapshot := snapRef } := by
  unfold ExpandVirtualMachineCloneSpec at h
  split at h
  · simp at h
  · rename_i ds hds
    split at h
    · simp at h
    · rename_i vm0 hvm
      split at h
      · simp at h
      · rename_i vprops hp
        split at h
        · simp at h
        · rename_i snapRef dmt hlk
          split at h
          · simp at h
          · rename_i pool hpool
            split at h
            · simp at h
            · rename_i hsys hhs
              split at h
              · simp at h
              · rename_i u hvh
                split at h
                · simp at h
                · rename_i relocators hrel
                  simp only [Prod.mk.injEq] at h
                  obtain ⟨hspec, hvmeq, -⟩ := h
                  injection hvmeq with hvmeq
                  subst hvmeq
                  exact ⟨ds, vprops, snapRef, dmt, pool, hsys, relocators,
                    hds, hvm, hp, hlk, hpool, hhs, hvh, hrel, hspec.symm⟩

/-- Success characterization of the instant builder: a run that returns a
handle and no error went through every stage, and every field of the
returned spec is determined by the stages' results. -/
lemma expandInstant_success (d : ResourceData) (c : Client) (fo : Folder)
    (spec : InstantCloneSpec) (vm : VMHandle)
    (h : ExpandVirtualMachineInstantCloneSpec d c fo = (spec, some vm, none)) :
    ∃ ds vprops configSpecs pool relocators,
      expandDatastore d c = .ok ds ∧
      c.vmFromUUID d.sourceUUID = .ok vm ∧
      c.vmProperties vm = .ok vprops ∧
      instantNetworkDeviceChanges c (selectEthernetCards vprops.config.hardware.device)
        d.networkInterfaces [] = (configSpecs, none) ∧
      c.resourcePoolFromID d.resourcePoolID = .ok pool ∧
      c.diskCloneRelocate d vprops.config.hardware.device = .ok relocators ∧
      spec = { name := d.name,
               location := { datastore := ds, pool := some pool.ref, host := none,
                             folder := some fo.ref, diskMoveType := "",
                             disk := relocators, deviceChange := configSpecs },
               config := d.extraConfig.map fun kv => { key := kv.1, value := kv.2 } } := by
  unfold ExpandVirtualMachineInstantCloneSpec at h
  simp only [] at h
  split at h
  · simp at h
  · rename_i ds hds
    split at h
    · simp at h
    · rename_i srcVM hvm
      split at h
      · simp at h
      · rename_i vprops hp
        split at h
        · simp at h
        · rename_i configSpecs hloop
          split at h
          · simp at h
          · rename_i pool hpool
            split at h
            · simp at h
            · rename_i relocators hrel
              simp only [Prod.mk.injEq] at h
              obtain ⟨hspec, hvmeq, -⟩ := h
              injection hvmeq with hvmeq
              subst hvmeq
              exact ⟨ds, vprops, configSpecs, pool, relocators,
                hds, hvm, hp, hloop, hpool, hrel, hspec.symm⟩

/-- Characterization of a successful run of the pairing loop: it extends the
accumulator by exactly `min` of the two list lengths, preserves the
accumulated prefix, and every appended entry is the edit instruction
wrapping the rewrite of the card at its index by the declaration at the same
index, using the successfully resolved backing. -/
lemma instantNetworkDeviceChanges_ok (c : Client) :
    ∀ (cards : List VirtualEthernetCard) (nis : List NetworkInterface)
      (acc configSpecs : List VirtualDeviceConfigSpec),
      instantNetworkDeviceChanges c cards nis acc = (configSpecs, none) →
      configSpecs.length = acc.length + min cards.length nis.length ∧
      (∀ i, i < acc.length → configSpecs.getD i dummySpec = acc.getD i dummySpec) ∧
      (∀ i, i < min cards.length nis.length →
        ∃ net backing,
          c.networkFromID ((nis.getD i dummyNI).networkID) = .ok net ∧
          c.ethernetCardBackingInfo net = .ok backing ∧
          configSpecs.getD (acc.length + i) dummySpec =
            { operation := operationEdit,
              device := .ethernet (updateEthernetCard (cards.getD i dummyCard)
                (nis.getD i dummyNI) backing) })
  | [], nis, acc, configSpecs => by
    intro h
    unfold instantNetworkDeviceChanges at h
    injection h with h1 h2
    subst h1
    exact ⟨by simp, fun i _ => rfl, fun i hi => by simp at hi⟩
  | card :: cards, [], acc, configSpecs => by
    intro h
    unfold instantNetworkDeviceChanges at h
    injection h with h1 h2
    subst h1
    exact ⟨by simp, fun i _ => rfl, fun i hi => by simp at hi⟩
  | card :: cards, ni :: nis, acc, configSpecs => by
    intro h
    unfold instantNetworkDeviceChanges at h
    cases hnet : c.networkFromID ni.networkID with
    | error e =>
      rw [hnet] at h
      simp at h
    | ok net =>
      simp only [hnet] at h
      cases hback : c.ethernetCardBackingInfo net with
      | error e =>
        rw [hback] at h
        simp at h
      | ok backing =>
        simp only [hback] at h
        set E : VirtualDeviceConfigSpec := { operation := operationEdit, device := .ethernet (updateEthernetCard card ni backing) } with hE
        obtain ⟨ihlen, ihpre, ihpair⟩ :=
          instantNetworkDeviceChanges_ok c cards nis (acc ++ [E]) configSpecs h
        have haccX : (acc ++ [E]).length = acc.length + 1 := by simp
        refine ⟨?_, ?_, ?_⟩
        · rw [ihlen, haccX]
          simp only [List.length_cons]
          omega
        · intro i hi
          rw [ihpre i (by rw [haccX]; omega)]
          exact List.getD_append _ _ _ _ hi
        · intro i hi
          cases i with
          | zero =>
            refine ⟨net, backing, hnet, hback, ?_⟩
            rw [Nat.add_zero]
            rw [ihpre acc.length (by rw [haccX]; omega)]
            rw [List.getD_append_right _ _ _ _ (Nat.le_refl _)]
            simp [hE]
          | succ j =>
            have hj : j < min cards.length nis.length := by
              simp only [List.length_cons] at hi
              omega
            obtain ⟨net2, backing2, hnet2, hback2, hentry⟩ := ihpair j hj
            refine ⟨net2, backing2, hnet2, hback2, ?_⟩
            have hidx : (acc ++ [E]).length + j = acc.length + (j + 1) := by
              rw [haccX]
              omega
            rw [hidx] at hentry
            exact hentry

/-- The address fields after the per-pair rewrite: a requested static MAC
sets manual addressing and the declared MAC; otherwise both fields are
cleared, whatever the card held before. -/
lemma updateEthernetCard_mac (card : VirtualEthernetCard) (ni : NetworkInterface)
    (backing : EthernetBacking) :
    (ni.useStaticMac = false →
      (updateEthernetCard card ni backing).addressType = "" ∧
      (updateEthernetCard card ni backing).macAddress = "")
    ∧ (ni.useStaticMac = true →
      (updateEthernetCard card ni backing).addressType = macTypeManual ∧
      (updateEthernetCard card ni backing).macAddress = ni.macAddress) := by
  unfold updateEthernetCard
  by_cases hs : ni.useStaticMac <;>
    by_cases hc : ni.bandwidthShareLevel = sharesLevelCustom <;>
    simp [hs, hc]

/-- Device-change characterization of a successful instant-clone run: the
instruction list pairs the filtered adapters positionally with the declared
interfaces, bounded by the shorter list. -/
lemma expandInstant_deviceChange (d : ResourceData) (c : Client) (fo : Folder)
    (spec : InstantCloneSpec) (vm : VMHandle) (vprops : VirtualMachine)
    (h : ExpandVirtualMachineInstantCloneSpec d c fo = (spec, some vm, none))
    (hp : c.vmProperties vm = .ok vprops) :
    spec.location.deviceChange.length =
      min (selectEthernetCards vprops.config.hardware.device).length
        d.networkInterfaces.length ∧
    ∀ i, i < min (selectEthernetCards vprops.config.hardware.device).length
        d.networkInterfaces.length →
      ∃ net backing,
        c.networkFromID ((d.networkInterfaces.getD i dummyNI).networkID) = .ok net ∧
        c.ethernetCardBackingInfo net = .ok backing ∧
        spec.location.deviceChange.getD i dummySpec =
          { operation := operationEdit,
            device := .ethernet (updateEthernetCard
              ((selectEthernetCards vprops.config.hardware.device).getD i dummyCard)
              (d.networkInterfaces.getD i dummyNI) backing) } := by
  obtain ⟨ds, vprops0, configSpecs, pool, rel, hds, hvm, hp0, hloop, hpool, hrel, hspec⟩ :=
    expandInstant_success d c fo spec vm h
  have hvpe : vprops0 = vprops := by
    rw [hp0] at hp
    injection hp
  subst hvpe
  obtain ⟨hlen, hpre, hpair⟩ := instantNetworkDeviceChanges_ok c _ _ _ _ hloop
  subst hspec
  constructor
  · simpa using hlen
  · intro i hi
    have hp2 := hpair i hi
    simpa using hp2

/-- C3: instant-clone network pairing is positional and index-bounded — on a
successful run over a source with N network-adapter-typed devices (after
filtering, order preserved) and M declared interface blocks, exactly
`min N M` device-change instructions are produced, the i-th being an edit
operation wrapping the (rewritten) device at index i paired with the
declaration at index i; declarations beyond N are ignored and devices beyond
M receive no instruction. -/
theorem instant_clone_positional_pairing (d : ResourceData) (c : Client)
    (fo : Folder) (spec : InstantCloneSpec) (vm : VMHandle) (vprops : VirtualMachine)
    (h : ExpandVirtualMachineInstantCloneSpec d c fo = (spec, some vm, none))
    (hp : c.vmProperties vm = .ok vprops) :
    spec.location.deviceChange.length =
      min (selectEthernetCards vprops.config.hardware.device).length
        d.networkInterfaces.length ∧
    ∀ i, i < min (selectEthernetCards vprops.config.hardware.device).length
        d.networkInterfaces.length →
      ∃ net backing,
        c.networkFromID ((d.networkInterfaces.getD i dummyNI).networkID) = .ok net ∧
        c.ethernetCardBackingInfo net = .ok backing ∧
        spec.location.deviceChange.getD i dummySpec =
          { operation := operationEdit,
            device := .ethernet (updateEthernetCard
              ((selectEthernetCards vprops.config.hardware.device).getD i dummyCard)
              (d.networkInterfaces.getD i dummyNI) backing) } :=
  expandInstant_deviceChange d c fo spec vm vprops h hp

/-- C5: static MAC handling is a hard reset — in a successful instant-clone
run, every paired adapter whose declaration has the static-MAC flag false is
rewritten with empty address-assignment mode and empty MAC address (whatever
the source device held), and with the flag true the mode is "manual" and the
declared MAC is copied. -/
theorem instant_clone_static_mac_reset (d : ResourceData) (c : Client)
    (fo : Folder) (spec : InstantCloneSpec) (vm : VMHandle) (vprops : VirtualMachine)
    (h : ExpandVirtualMachineInstantCloneSpec d c fo = (spec, some vm, none))
    (hp : c.vmProperties vm = .ok vprops) :
    ∀ i, i < min (selectEthernetCards vprops.config.hardware.device).length
        d.networkInterfaces.length →
      ∃ card, (spec.location.deviceChange.getD i dummySpec).device = .ethernet card ∧
        ((d.networkInterfaces.getD i dummyNI).useStaticMac = false →
          card.addressType = "" ∧ card.macAddress = "") ∧
        ((d.networkInterfaces.getD i dummyNI).useStaticMac = true →
          card.addressType = macTypeManual ∧
          card.macAddress = (d.networkInterfaces.getD i dummyNI).macAddress) := by
  intro i hi
  obtain ⟨-, hpair⟩ := expandInstant_deviceChange d c fo spec vm vprops h hp
  obtain ⟨net, backing, -, -, hentry⟩ := hpair i hi
  refine ⟨updateEthernetCard
      ((selectEthernetCards vprops.config.hardware.device).getD i dummyCard)
      (d.networkInterfaces.getD i dummyNI) backing, ?_, ?_, ?_⟩
  · rw [hentry]
  · exact fun hf => (updateEthernetCard_mac _ _ _).1 hf
  · exact fun ht => (updateEthernetCard_mac _ _ _).2 ht

/-- Witness for C3: three adapters and one declaration produce exactly one
device-change instruction. -/
theorem instant_clone_positional_pairing_witness :
    instantSpecW.location.deviceChange.length =
      min (selectEthernetCards propsThreeNics.config.hardware.device).length
        dataInstant.networkInterfaces.length :=
  (instant_clone_positional_pairing dataInstant clientInstant fo1 instantSpecW
    ⟨⟨"vm-43"⟩⟩ propsThreeNics (by decide) rfl).1

/-- Witness for C5: the paired adapter, whose source device held a manual
MAC, is rewritten with empty address mode and MAC since the declaration's
static-MAC flag is false. -/
theorem instant_clone_static_mac_reset_witness :
    ∃ card, (instantSpecW.location.deviceChange.getD 0 dummySpec).device = .ethernet card ∧
      card.addressType = "" ∧ card.macAddress = "" := by
  obtain ⟨card, hdev, hfalse, -⟩ :=
    instant_clone_static_mac_reset dataInstant clientInstant fo1 instantSpecW
      ⟨⟨"vm-43"⟩⟩ propsThreeNics (by decide) rfl 0 (by decide)
  exact ⟨card, hdev, (hfalse rfl).1, (hfalse rfl).2⟩

/-- A successful eligibility check implies the snapshot tree is present. -/
lemma validateCloneSnapshots_ok_snapshot (props : VirtualMachine)
    (h : validateCloneSnapshots props = .ok ()) :
    ∃ snap, props.snapshot = some snap := by
  unfold validateCloneSnapshots at h
  cases hs : props.snapshot with
  | none =>
    rw [hs] at h
    simp at h
  | some snap => exact ⟨snap, rfl⟩

/-- The linked-clone step with the flag on: the eligibility check passed and
the returned pair is the source's current snapshot and the child-disk-backing
policy. -/
lemma expandLinked_true (d : ResourceData) (vprops : VirtualMachine)
    (snapRef : Option MoRef) (dmt : String)
    (hl : d.linkedClone = true)
    (h : expandLinked d vprops = .ok (snapRef, dmt)) :
    ∃ snap, vprops.snapshot = some snap ∧
      snapRef = some snap.currentSnapshot ∧
      dmt = diskMoveCreateNewChildDiskBacking := by
  unfold expandLinked at h
  rw [hl] at h
  simp only [if_true] at h
  cases hv : validateCloneSnapshots vprops with
  | error e =>
    rw [hv] at h
    simp at h
  | ok u =>
    cases u
    obtain ⟨snap, hsnap⟩ := validateCloneSnapshots_ok_snapshot vprops hv
    rw [hv] at h
    simp only [hsnap, Except.ok.injEq, Prod.mk.injEq] at h
    exact ⟨snap, hsnap, h.1.symm, h.2.symm⟩

/-- The linked-clone step with the flag off: both values stay at their zero
values. -/
lemma expandLinked_false (d : ResourceData) (vprops : VirtualMachine)
    (hf : d.linkedClone = false) :
    expandLinked d vprops = .ok (none, "") := by
  unfold expandLinked
  rw [hf]
  simp

/-- C6: linked clone sets exactly two fields of the traditional clone spec.
On a successful run with the flag true, the spec's snapshot reference is the
source's current snapshot (in particular non-empty) and the disk-move policy
is "create new child disk backing"; with the flag false both fields keep
their zero values; and no other field depends on the flag: two successful
runs differing only in the flag (with the delegated disk reconciler
insensitive to the flag) agree on the returned handle and on every other
spec field. -/
theorem clone_spec_linked_clone_fields (d : ResourceData) (c : Client)
    (spec : CloneSpec) (vm : VMHandle) (vprops : VirtualMachine)
    (h : ExpandVirtualMachineCloneSpec d c = (spec, some vm, none))
    (hp : c.vmProperties vm = .ok vprops) :
    (d.linkedClone = true →
      ∃ snap, vprops.snapshot = some snap ∧
        spec.snapshot = some snap.currentSnapshot ∧
        spec.location.diskMoveType = diskMoveCreateNewChildDiskBacking)
    ∧ (d.linkedClone = false →
        spec.snapshot = none ∧ spec.location.diskMoveType = "")
    ∧ (∀ b spec2 vm2,
        ExpandVirtualMachineCloneSpec { d with linkedClone := b } c =
          (spec2, some vm2, none) →
        (∀ l, c.diskCloneRelocate { d with linkedClone := b } l =
          c.diskCloneRelocate d l) →
        vm2 = vm ∧
        spec2.location.datastore = spec.location.datastore ∧
        spec2.location.pool = spec.location.pool ∧
        spec2.location.host = spec.location.host ∧
        spec2.location.folder = spec.location.folder ∧
        spec2.location.disk = spec.location.disk ∧
        spec2.location.deviceChange = spec.location.deviceChange) := by
  obtain ⟨ds, vprops0, snapRef, dmt, pool, hsys, rel, hds, hvm, hp0, hlk, hpool,
    hhs, hvh, hrel, hspec⟩ := expandClone_success d c spec vm h
  have hvpe : vprops0 = vprops := by
    rw [hp0] at hp
    injection hp
  subst hvpe
  subst hspec
  refine ⟨?_, ?_, ?_⟩
  · intro hl
    obtain ⟨snap, hsnap, href, hdmt⟩ := expandLinked_true d vprops0 snapRef dmt hl hlk
    exact ⟨snap, hsnap, by simp [href], by simp [hdmt]⟩
  · intro hf
    have hz := expandLinked_false d vprops0 hf
    rw [hlk] at hz
    injection hz with hz1
    injection hz1 with hza hzb
    exact ⟨by simp [hza], by simp [hzb]⟩
  · intro b spec2 vm2 h2 hdel
    obtain ⟨ds2, vprops2, snapRef2, dmt2, pool2, hsys2, rel2, hds2, hvm2, hp2,
      hlk2, hpool2, hhs2, hvh2, hrel2, hspec2⟩ :=
      expandClone_success { d with linkedClone := b } c spec2 vm2 h2
    have hds2x : expandDatastore d c = .ok ds2 := hds2
    have hvm2x : c.vmFromUUID d.templateUUID = .ok vm2 := hvm2
    have hhs2x : expandHost d c = .ok hsys2 := hhs2
    have hpool2x : c.resourcePoolFromID d.resourcePoolID = .ok pool2 := hpool2
    have hvmeq : vm2 = vm := by
      rw [hvm2x] at hvm
      exact Except.ok.inj hvm
    have hvpeq : vprops2 = vprops0 := by
      rw [hvmeq] at hp2
      rw [hp0] at hp2
      injection hp2 with hp2
      exact hp2.symm
    have hdseq : ds2 = ds := by
      rw [hds2x] at hds
      exact Except.ok.inj hds
    have hpooleq : pool2 = pool := by
      rw [hpool2x] at hpool
      exact Except.ok.inj hpool
    have hhseq : hsys2 = hsys := by
      rw [hhs2x] at hhs
      exact Except.ok.inj hhs
    have hreleq : rel2 = rel := by
      rw [hvpeq] at hrel2
      rw [hdel] at hrel2
      rw [hrel] at hrel2
      injection hrel2 with hrel2
      exact hrel2.symm
    subst hspec2
    exact ⟨hvmeq, by simp [hdseq], by simp [hpooleq], by simp [hhseq], by simp,
      by simp [hreleq], by simp⟩

/-- Witness for C6: the linked witness run yields a spec whose snapshot
reference is the source's current snapshot and whose disk-move policy is
"create new child disk backing". -/
theorem clone_spec_linked_clone_fields_witness :
    ∃ snap, propsEligible.snapshot = some snap ∧
      cloneSpecW.snapshot = some snap.currentSnapshot ∧
      cloneSpecW.location.diskMoveType = diskMoveCreateNewChildDiskBacking :=
  (clone_spec_linked_clone_fields dataLinked clientHappy cloneSpecW ⟨⟨"vm-42"⟩⟩
    propsEligible (by decide) rfl).1 rfl

/-- A declared datastore resolves to a set datastore reference in the
datastore step. -/
lemma expandDatastore_isSome (d : ResourceData) (c : Client) (ds : Option MoRef)
    (h : expandDatastore d c = .ok ds) (hd : d.datastoreID.isSome) : ds.isSome := by
  unfold expandDatastore at h
  cases hid : d.datastoreID with
  | none =>
    rw [hid] at hd
    simp at hd
  | some dsID =>
    simp only [hid] at h
    cases hds : c.datastoreFromID dsID with
    | error e =>
      simp only [hds] at h
      simp at h
    | ok dsx =>
      simp only [hds, Except.ok.injEq] at h
      rw [← h]
      rfl

/-- A declared host resolves to a set host reference in the host step. -/
lemma expandHost_isSome (d : ResourceData) (c : Client) (hs : Option HostSystem)
    (h : expandHost d c = .ok hs) (hd : d.hostSystemID.isSome) :
    (hs.map HostSystem.ref).isSome := by
  unfold expandHost at h
  cases hid : d.hostSystemID with
  | none =>
    rw [hid] at hd
    simp at hd
  | some hsID =>
    simp only [hid] at h
    cases hhs : c.hostFromID hsID with
    | error e =>
      simp only [hhs] at h
      simp at h
    | ok hsx =>
      simp only [hhs, Except.ok.injEq] at h
      rw [← h]
      rfl

/-- Every result of the traditional builder is either an error with no
handle, or a success with a handle. -/
lemma expandClone_shape (d : ResourceData) (c : Client) (spec : CloneSpec)
    (vm : Option VMHandle) (err : Option CloneErr)
    (h : ExpandVirtualMachineCloneSpec d c = (spec, vm, err)) :
    (∃ e, err = some e ∧ vm = none) ∨ (err = none ∧ ∃ vmh, vm = some vmh) := by
  unfold ExpandVirtualMachineCloneSpec at h
  repeat' split at h
  all_goals simp only [Prod.mk.injEq] at h
  all_goals obtain ⟨-, h2, h3⟩ := h
  all_goals first
    | exact Or.inl ⟨_, h3.symm, h2.symm⟩
    | exact Or.inr ⟨h3.symm, _, h2.symm⟩

/-- Every result of the instant builder is either an error with no handle,
or a success with a handle. -/
lemma expandInstant_shape (d : ResourceData) (c : Client) (fo : Folder)
    (spec : InstantCloneSpec) (vm : Option VMHandle) (err : Option CloneErr)
    (h : ExpandVirtualMachineInstantCloneSpec d c fo = (spec, vm, err)) :
    (∃ e, err = some e ∧ vm = none) ∨ (err = none ∧ ∃ vmh, vm = some vmh) := by
  unfold ExpandVirtualMachineInstantCloneSpec at h
  simp only [] at h
  repeat' split at h
  all_goals simp only [Prod.mk.injEq] at h
  all_goals obtain ⟨-, h2, h3⟩ := h
  all_goals first
    | exact Or.inl ⟨_, h3.symm, h2.symm⟩
    | exact Or.inr ⟨h3.symm, _, h2.symm⟩

/-- C7: expand has no partial-success state.  For every input, each builder
either returns no error — and then a source handle is present and the spec
is fully assembled (pool reference set, declared datastore/host resolved
into the spec, linked-clone fields set when requested, name/folder/config
populated for the instant variant) — or returns an error and a nil handle,
so a caller never receives a partially assembled spec as a successful
result. -/
theorem expand_no_partial_success (d : ResourceData) (c : Client) (fo : Folder) :
    (∀ spec vm err, ExpandVirtualMachineCloneSpec d c = (spec, vm, err) →
      (err = none → vm.isSome ∧ spec.location.pool.isSome ∧
        (d.datastoreID.isSome → spec.location.datastore.isSome) ∧
        (d.hostSystemID.isSome → spec.location.host.isSome) ∧
        (d.linkedClone = true → spec.snapshot.isSome ∧
          spec.location.diskMoveType = diskMoveCreateNewChildDiskBacking)) ∧
      (err.isSome → vm = none))
    ∧ (∀ spec vm err, ExpandVirtualMachineInstantCloneSpec d c fo = (spec, vm, err) →
      (err = none → vm.isSome ∧ spec.location.pool.isSome ∧
        spec.location.folder = some fo.ref ∧ spec.name = d.name ∧
        spec.config = d.extraConfig.map (fun kv => { key := kv.1, value := kv.2 }) ∧
        (d.datastoreID.isSome → spec.location.datastore.isSome)) ∧
      (err.isSome → vm = none)) := by
  constructor
  · intro spec vm err h
    constructor
    · intro herr
      subst herr
      rcases expandClone_shape d c spec vm none h with ⟨e, habs, -⟩ | ⟨-, vmh, hvm⟩
      · cases habs
      · subst hvm
        obtain ⟨ds, vprops, snapRef, dmt, pool, hsys, rel, hds, hvmk, hp, hlk,
          hpool, hhs, hvh, hrel, hspec⟩ := expandClone_success d c spec vmh h
        subst hspec
        refine ⟨rfl, by simp, ?_, ?_, ?_⟩
        · intro hd
          have := expandDatastore_isSome d c ds hds hd
          simpa using this
        · intro hh
          have := expandHost_isSome d c hsys hhs hh
          simpa using this
        · intro hl
          obtain ⟨snap, hsnap, href, hdmt⟩ := expandLinked_true d vprops snapRef dmt hl hlk
          exact ⟨by simp [href], by simp [hdmt]⟩
    · intro hsome
      rcases expandClone_shape d c spec vm err h with ⟨e, -, hnone⟩ | ⟨hnone, -, -⟩
      · exact hnone
      · rw [hnone] at hsome
        simp at hsome
  · intro spec vm err h
    constructor
    · intro herr
      subst herr
      rcases expandInstant_shape d c fo spec vm none h with ⟨e, habs, -⟩ | ⟨-, vmh, hvm⟩
      · cases habs
      · subst hvm
        obtain ⟨ds, vprops, configSpecs, pool, rel, hds, hvmk, hp, hloop, hpool,
          hrel, hspec⟩ := expandInstant_success d c fo spec vmh h
        subst hspec
        refine ⟨rfl, by simp, by simp, by simp, by simp, ?_⟩
        intro hd
        have := expandDatastore_isSome d c ds hds hd
        simpa using this
    · intro hsome
      rcases expandInstant_shape d c fo spec vm err h with ⟨e, -, hnone⟩ | ⟨hnone, -, -⟩
      · exact hnone
      · rw [hnone] at hsome
        simp at hsome

/-- Witness for C7: applied to the successful linked witness run, the
returned triple has a handle and a fully assembled spec. -/
theorem expand_no_partial_success_witness :
    (some (⟨⟨"vm-42"⟩⟩ : VMHandle)).isSome ∧ cloneSpecW.location.pool.isSome ∧
    (dataLinked.datastoreID.isSome → cloneSpecW.location.datastore.isSome) ∧
    (dataLinked.hostSystemID.isSome → cloneSpecW.location.host.isSome) ∧
    (dataLinked.linkedClone = true → cloneSpecW.snapshot.isSome ∧
      cloneSpecW.location.diskMoveType = diskMoveCreateNewChildDiskBacking) :=
  ((expand_no_partial_success dataLinked clientHappy fo1).1 cloneSpecW
    (some ⟨⟨"vm-42"⟩⟩) none (by decide)).1 rfl

/-- A declared host that resolves makes the host step return it. -/
lemma expandHost_some (d : ResourceData) (c : Client) (hsID : String)
    (hsx : HostSystem) (hid : d.hostSystemID = some hsID)
    (hh : c.hostFromID hsID = .ok hsx) : expandHost d c = .ok (some hsx) := by
  unfold expandHost
  rw [hid]
  simp [hh]

/-- When every stage before the host check succeeds and the resolved host is
not a member of the resolved pool's compute environment, the traditional
builder fails with the host-not-in-pool error. -/
lemma expandClone_hostNotInPool (d : ResourceData) (c : Client)
    (ds : Option MoRef) (vm : VMHandle) (vprops : VirtualMachine)
    (snapRef : Option MoRef) (dmt : String) (pool : ResourcePool) (hsx : HostSystem)
    (hds : expandDatastore d c = .ok ds)
    (hvm : c.vmFromUUID d.templateUUID = .ok vm)
    (hp : c.vmProperties vm = .ok vprops)
    (hlk : expandLinked d vprops = .ok (snapRef, dmt))
    (hpool : c.resourcePoolFromID d.resourcePoolID = .ok pool)
    (hhs : expandHost d c = .ok (some hsx))
    (hmem : hsx.ref ∉ pool.hosts) :
    (ExpandVirtualMachineCloneSpec d c).2.2 =
      some (.hostNotInPool hsx.ref.value pool.ref.value) := by
  have hvh : ValidateHost pool (some hsx) =
      .error (.hostNotInPool hsx.ref.value pool.ref.value) := by
    unfold ValidateHost
    simp [hmem]
  simp only [ExpandVirtualMachineCloneSpec, hds, hvm, hp, hlk, hpool, hhs, hvh]

/-- When the host check passes, no later stage of the traditional builder
can produce a host-not-in-pool error. -/
lemma expandClone_hostOk (d : ResourceData) (c : Client)
    (ds : Option MoRef) (vm : VMHandle) (vprops : VirtualMachine)
    (snapRef : Option MoRef) (dmt : String) (pool : ResourcePool)
    (hs : Option HostSystem)
    (hds : expandDatastore d c = .ok ds)
    (hvm : c.vmFromUUID d.templateUUID = .ok vm)
    (hp : c.vmProperties vm = .ok vprops)
    (hlk : expandLinked d vprops = .ok (snapRef, dmt))
    (hpool : c.resourcePoolFromID d.resourcePoolID = .ok pool)
    (hhs : expandHost d c = .ok hs)
    (hvh : ValidateHost pool hs = .ok ()) :
    ∀ hostv poolv, (ExpandVirtualMachineCloneSpec d c).2.2 ≠
      some (.hostNotInPool hostv poolv) := by
  intro hostv poolv
  simp only [ExpandVirtualMachineCloneSpec, hds, hvm, hp, hlk, hpool, hhs, hvh]
  cases hrel : c.diskCloneRelocate d vprops.config.hardware.device with
  | error e => simp [hrel]
  | ok rel => simp [hrel]

/-- The datastore step only fails with a datastore-location error. -/
lemma expandDatastore_error (d : ResourceData) (c : Client) (e : CloneErr)
    (h : expandDatastore d c = .error e) : ∃ s, e = .datastoreLocate s := by
  unfold expandDatastore at h
  cases hid : d.datastoreID with
  | none =>
    rw [hid] at h
    simp at h
  | some dsID =>
    simp only [hid] at h
    cases hds : c.datastoreFromID dsID with
    | error s =>
      simp only [hds, Except.error.injEq] at h
      exact ⟨s, h.symm⟩
    | ok dsx =>
      simp only [hds] at h
      simp at h

/-- The instant builder never produces a host-not-in-pool error. -/
lemma expandInstant_no_hostcheck (d : ResourceData) (c : Client) (fo : Folder)
    (spec : InstantCloneSpec) (vm : Option VMHandle) (err : Option CloneErr)
    (h : ExpandVirtualMachineInstantCloneSpec d c fo = (spec, vm, err)) :
    ∀ hostv poolv, err ≠ some (.hostNotInPool hostv poolv) := by
  unfold ExpandVirtualMachineInstantCloneSpec at h
  simp only [] at h
  repeat' split at h
  all_goals simp only [Prod.mk.injEq] at h
  all_goals obtain ⟨-, -, h3⟩ := h
  all_goals intro hostv poolv habs
  all_goals rw [← h3] at habs
  all_goals first
    | (simp only [Option.some.injEq] at habs
       subst habs
       obtain ⟨s, hbad⟩ := expandDatastore_error _ _ _ (by assumption)
       cases hbad)
    | exact absurd habs (by simp)

/-- C8: host-in-pool checking is asymmetric between the two builders.  The
instant builder never fails with a host-not-in-pool error on any input; the
traditional builder, once a target host is declared and resolved and the
stages before the placement check succeed, fails with the host-not-in-pool
error exactly when the host is not a member of the resolved resource pool's
compute environment. -/
theorem host_in_pool_asymmetry (d : ResourceData) (c : Client) (fo : Folder) :
    (∀ spec vm err hostv poolv,
      ExpandVirtualMachineInstantCloneSpec d c fo = (spec, vm, err) →
      err ≠ some (.hostNotInPool hostv poolv))
    ∧ (∀ ds vm vprops snapRef dmt pool hsx hsID,
        expandDatastore d c = .ok ds →
        c.vmFromUUID d.templateUUID = .ok vm →
        c.vmProperties vm = .ok vprops →
        expandLinked d vprops = .ok (snapRef, dmt) →
        c.resourcePoolFromID d.resourcePoolID = .ok pool →
        d.hostSystemID = some hsID →
        c.hostFromID hsID = .ok hsx →
        ((hsx.ref ∈ pool.hosts →
          ∀ hostv poolv, (ExpandVirtualMachineCloneSpec d c).2.2 ≠
            some (.hostNotInPool hostv poolv))
        ∧ (hsx.ref ∉ pool.hosts →
          (ExpandVirtualMachineCloneSpec d c).2.2 =
            some (.hostNotInPool hsx.ref.value pool.ref.value)))) := by
  constructor
  · intro spec vm err hostv poolv h
    exact expandInstant_no_hostcheck d c fo spec vm err h hostv poolv
  · intro ds vm vprops snapRef dmt pool hsx hsID hds hvm hp hlk hpool hid hh
    have hhs : expandHost d c = .ok (some hsx) := expandHost_some d c hsID hsx hid hh
    constructor
    · intro hmem
      have hvh : ValidateHost pool (some hsx) = .ok () := by
        unfold ValidateHost
        simp [hmem]
      exact expandClone_hostOk d c ds vm vprops snapRef dmt pool (some hsx)
        hds hvm hp hlk hpool hhs hvh
    · intro hmem
      exact expandClone_hostNotInPool d c ds vm vprops snapRef dmt pool hsx
        hds hvm hp hlk hpool hhs hmem

/-- Witness for C8: with the declared host absent from the pool's compute
environment the traditional builder fails with host-not-in-pool, while a
concrete instant run never produces that error. -/
theorem host_in_pool_asymmetry_witness :
    (ExpandVirtualMachineCloneSpec dataLinked clientHostMiss).2.2 =
      some (.hostNotInPool "host-1-ref" "pool-1-ref") ∧
    (ExpandVirtualMachineInstantCloneSpec dataInstant clientInstant fo1).2.2 ≠
      some (.hostNotInPool "host-1-ref" "pool-1-ref") := by
  constructor
  · exact ((host_in_pool_asymmetry dataLinked clientHostMiss fo1).2
      (some ⟨"ds-1-ref"⟩) ⟨⟨"vm-42"⟩⟩ propsEligible (some ⟨"snap-7"⟩)
      diskMoveCreateNewChildDiskBacking ⟨⟨"pool-1-ref"⟩, []⟩ ⟨⟨"host-1-ref"⟩⟩
      "host-1" rfl rfl rfl rfl rfl rfl rfl).2 (by decide)
  · exact (host_in_pool_asymmetry dataInstant clientInstant fo1).1 _ _ _
      "host-1-ref" "pool-1-ref" rfl

/-- Counterexample to C9 as stated: the two runs translate the same
extra-configuration mapping (equal as a multiset of key/value pairs, the two
list orders being two iteration orders the Go runtime may present), both
succeed, yet the produced entry lists differ in order, so the produced order
is not determined by the mapping alone. -/
theorem extra_config_order_counterexample :
    (dataExtraAB.extraConfig : Multiset (String × String)) =
      (dataExtraBA.extraConfig : Multiset (String × String)) ∧
    (ExpandVirtualMachineInstantCloneSpec dataExtraAB clientInstant fo1).2.2 = none ∧
    (ExpandVirtualMachineInstantCloneSpec dataExtraBA clientInstant fo1).2.2 = none ∧
    (ExpandVirtualMachineInstantCloneSpec dataExtraAB clientInstant fo1).1.config ≠
      (ExpandVirtualMachineInstantCloneSpec dataExtraBA clientInstant fo1).1.config := by
  refine ⟨by decide, rfl, rfl, by decide⟩

/-- C9 (amended): on a successful run the produced entry list is exactly the
image of the declared extra-configuration mapping, each key/value pair
appearing exactly once, in the iteration order in which the runtime
presented the mapping; the function is deterministic in that order, but the
order itself is whatever the implementation's map iteration yields, which Go
does not fix across runs. -/
theorem extra_config_entries_exact (d : ResourceData) (c : Client) (fo : Folder)
    (spec : InstantCloneSpec) (vm : VMHandle)
    (h : ExpandVirtualMachineInstantCloneSpec d c fo = (spec, some vm, none)) :
    spec.config = d.extraConfig.map (fun kv => { key := kv.1, value := kv.2 }) := by
  obtain ⟨ds, vprops, cs, pool, rel, -, -, -, -, -, -, hspec⟩ :=
    expandInstant_success d c fo spec vm h
  subst hspec
  rfl

/-- Witness for the amended C9: the concrete run's entries are exactly the
declared mapping's pairs in presented order. -/
theorem extra_config_entries_exact_witness :
    (ExpandVirtualMachineInstantCloneSpec dataExtraAB clientInstant fo1).1.config =
      dataExtraAB.extraConfig.map (fun kv => { key := kv.1, value := kv.2 }) :=
  extra_config_entries_exact dataExtraAB clientInstant fo1
    (ExpandVirtualMachineInstantCloneSpec dataExtraAB clientInstant fo1).1
    ⟨⟨"vm-43"⟩⟩ rfl

end vmworkflow
